import Mathlib

/-!
Verification development for the BMX codec core: the 32-byte structural
header (parse / validate / serialize), the packed 12-bit palette entry
codec, the scanline geometry helper, the WIC frame decoder's CopyPixels
path and the WIC frame encoder's state machine (SetSize, SetPixelFormat,
WritePixels, SetPalette, Commit).

Machine integers are modelled as Nat with explicit reductions modulo
2 ^ 16 or 2 ^ 32 where the original u16 / u32 arithmetic can wrap
(release-profile two's-complement semantics); i32 values coming in over
the COM ABI are modelled as Int.  Fallible operations return Except with
one error constructor per distinct error site of the source.
-/

set_option autoImplicit false
set_option maxRecDepth 4096

/-- One distinct constructor per variant of the FileHeaderError enum in bmx.rs. -/
inductive FileHeaderError where
  | invalidHeaderSize
  | invalidFileId
  | invalidVersion
  | invalidBitDepth
  | invalidVeraColorDepthRegister
  | bitDepthMismatch
  | invalidDataStart
  | invalidVeraBorderColor
  deriving DecidableEq, Repr

deriving instance DecidableEq for Except

/-- The 32-byte BMX FileHeader of bmx.rs.  The three NonZeroU8 file-id bytes
are modelled as three Nat fields (from_bytes checks them for zero before
construction); the i8 compressed flag is modelled as its raw byte, which is
what the source stores and round-trips. -/
structure FileHeader where
  file_id0 : Nat
  file_id1 : Nat
  file_id2 : Nat
  version : Nat
  bit_depth : Nat
  vera_color_depth_register : Nat
  width : Nat
  height : Nat
  pal_used : Nat
  pal_start : Nat
  data_start : Nat
  compressed : Nat
  vera_border_color : Nat
  reserved : List Nat
  deriving DecidableEq, Repr

/-- Well-formedness of the Nat embedding: every field fits the machine type
it models (u8 / u16 fields, 16 reserved bytes). -/
def FileHeader.wf (h : FileHeader) : Prop :=
  h.file_id0 < 256 ∧ h.file_id1 < 256 ∧ h.file_id2 < 256 ∧ h.version < 256 ∧
  h.bit_depth < 256 ∧ h.vera_color_depth_register < 256 ∧ h.width < 65536 ∧
  h.height < 65536 ∧ h.pal_used < 256 ∧ h.pal_start < 256 ∧
  h.data_start < 65536 ∧ h.compressed < 256 ∧ h.vera_border_color < 256 ∧
  h.reserved.length = 16 ∧ ∀ b ∈ h.reserved, b < 256

instance (h : FileHeader) : Decidable h.wf := by
  unfold FileHeader.wf; infer_instance

/-- FileHeader::palette_entry_count: 256 when pal_used is 0, else pal_used. -/
def FileHeader.palette_entry_count (h : FileHeader) : Nat :=
  if h.pal_used = 0 then 256 else h.pal_used

/-- FileHeader::validate, checks in source order; size_of FileHeader is 32 and
size_of PaletteEntry is 2 in the repr(C) source layout. -/
def FileHeader.validate (h : FileHeader) : Except FileHeaderError Unit :=
  if ¬(h.file_id0 = 66 ∧ h.file_id1 = 77 ∧ h.file_id2 = 88) then
    .error .invalidFileId
  else if h.version ≠ 1 then
    .error .invalidVersion
  else if ¬(h.bit_depth = 1 ∨ h.bit_depth = 2 ∨ h.bit_depth = 4 ∨ h.bit_depth = 8) then
    .error .invalidBitDepth
  else if ¬(h.vera_color_depth_register ≤ 3) then
    .error .invalidVeraColorDepthRegister
  else if ¬((h.bit_depth = 1 ∧ h.vera_color_depth_register = 0) ∨
      (h.bit_depth = 2 ∧ h.vera_color_depth_register = 1) ∨
      (h.bit_depth = 4 ∧ h.vera_color_depth_register = 2) ∨
      (h.bit_depth = 8 ∧ h.vera_color_depth_register = 3)) then
    .error .bitDepthMismatch
  else if h.data_start < 32 + 2 * h.palette_entry_count then
    .error .invalidDataStart
  else
    .ok ()

/-- FileHeader::to_bytes: 32 bytes; width and height little-endian,
data_start big-endian (to_be_bytes), reserved verbatim. -/
def FileHeader.to_bytes (h : FileHeader) : List Nat :=
  h.file_id0 :: h.file_id1 :: h.file_id2 :: h.version :: h.bit_depth ::
  h.vera_color_depth_register :: (h.width % 256) :: (h.width / 256 % 256) ::
  (h.height % 256) :: (h.height / 256 % 256) :: h.pal_used :: h.pal_start ::
  (h.data_start / 256 % 256) :: (h.data_start % 256) :: h.compressed ::
  h.vera_border_color :: h.reserved

/-- FileHeader::from_bytes: length must be 32, the three file-id bytes must be
nonzero (NonZeroU8::new), multi-byte fields read little-endian (including
data_start), then validate runs on the decoded header. -/
def FileHeader.from_bytes (bytes : List Nat) : Except FileHeaderError FileHeader :=
  if bytes.length ≠ 32 then .error .invalidHeaderSize
  else if bytes.getD 0 0 = 0 then .error .invalidFileId
  else if bytes.getD 1 0 = 0 then .error .invalidFileId
  else if bytes.getD 2 0 = 0 then .error .invalidFileId
  else
    let header : FileHeader :=
      { file_id0 := bytes.getD 0 0
        file_id1 := bytes.getD 1 0
        file_id2 := bytes.getD 2 0
        version := bytes.getD 3 0
        bit_depth := bytes.getD 4 0
        vera_color_depth_register := bytes.getD 5 0
        width := bytes.getD 6 0 + 256 * bytes.getD 7 0
        height := bytes.getD 8 0 + 256 * bytes.getD 9 0
        pal_used := bytes.getD 10 0
        pal_start := bytes.getD 11 0
        data_start := bytes.getD 12 0 + 256 * bytes.getD 13 0
        compressed := bytes.getD 14 0
        vera_border_color := bytes.getD 15 0
        reserved := bytes.drop 16 }
    match header.validate with
    | .ok _ => .ok header
    | .error e => .error e

/-- PaletteEntry of bmx.rs: two bytes, gb = packed green-high / blue-low
nibbles, r = red nibble alone. -/
structure PaletteEntry where
  gb : Nat
  r : Nat
  deriving DecidableEq, Repr

/-- PaletteEntry::from_rgb: top four bits of each channel. -/
def PaletteEntry.from_rgb (r g b : Nat) : PaletteEntry :=
  { gb := (g >>> 4) <<< 4 ||| (b >>> 4), r := r >>> 4 }

/-- PaletteEntry::to_rgb: unpack nibbles and left-shift by four. -/
def PaletteEntry.to_rgb (e : PaletteEntry) : Nat × Nat × Nat :=
  (e.r <<< 4, (e.gb >>> 4) <<< 4, (e.gb &&& 15) <<< 4)

/-- PaletteEntry::from_wic: 0xAARRGGBB input, channels truncated to u8. -/
def PaletteEntry.from_wic (color : Nat) : PaletteEntry :=
  PaletteEntry.from_rgb ((color >>> 16) % 256) ((color >>> 8) % 256) (color % 256)

/-- PaletteEntry::to_wic: 0xAARRGGBB with alpha forced fully opaque. -/
def PaletteEntry.to_wic (e : PaletteEntry) : Nat :=
  let rgb := e.to_rgb
  0xFF000000 ||| rgb.1 <<< 16 ||| rgb.2.1 <<< 8 ||| rgb.2.2

/-- In-memory byte layout of a PaletteEntry (repr C: gb first, then r),
as written by the encoder's raw struct serialization. -/
def PaletteEntry.struct_bytes (e : PaletteEntry) : List Nat :=
  [e.gb, e.r]

/-- bytes_per_line of com/wic/util.rs: u32 arithmetic, result cast to u16. -/
def bytes_per_line (width bit_depth : Nat) : Nat :=
  ((width * bit_depth + 7) / 8) % 65536

/-- Spec-side ceiling division, for stating the scanline-geometry claim. -/
def ceil_div (a b : Nat) : Nat :=
  (a + b - 1) / b

/-- WICRect: four i32 fields. -/
structure WRect where
  x : Int
  y : Int
  w : Int
  h : Int
  deriving DecidableEq, Repr

/-- Reinterpretation of an i32 value as u32 (two's complement). -/
def u32_of_i32 (v : Int) : Nat :=
  (v % 4294967296).toNat

/-- Truncating cast of an i32 value to u16 (low 16 bits of the two's
complement representation). -/
def u16_of_i32 (v : Int) : Nat :=
  u32_of_i32 v % 65536

/-- Error sites of the decoder's CopyPixels path. -/
inductive DecodeError where
  | insufficientBuffer
  | invalidArg
  | readFailed
  deriving DecidableEq, Repr

/-- stream_read_exact over a pure byte list: n bytes at position pos, or a
stream error when the region is exhausted. -/
def read_exact (data : List Nat) (pos n : Nat) : Option (List Nat) :=
  if pos + n ≤ data.length then some ((data.drop pos).take n) else none

/-- Destination-buffer write events for a byte list bs placed at offset o:
one (offset, byte) pair per byte, in write order. -/
def writes_at (o : Nat) (bs : List Nat) : List (Nat × Nat) :=
  bs.enum.map (fun p => (o + p.1, p.2))

/-- Row loop of the rectangle branch of FrameDecoder CopyPixels: for each row
(index i, base destination offset advancing by stride), rows after the first
with rect.x > 0 first discard x leading bytes via a real read (the discarded
bytes land in the destination and are immediately overwritten by the row
copy), then bplRect bytes are copied. -/
def rect_copy_loop (data : List Nat) (x bplRect stride : Nat) :
    Nat → Nat → Nat → Nat → Except DecodeError (List (Nat × Nat))
  | _, _, _, 0 => .ok []
  | pos, base, i, rem + 1 =>
    let skipN := if 0 < i ∧ 0 < x then x else 0
    match read_exact data pos skipN with
    | none => .error .readFailed
    | some skipBytes =>
      match read_exact data (pos + skipN) bplRect with
      | none => .error .readFailed
      | some rowBytes =>
        match rect_copy_loop data x bplRect stride (pos + skipN + bplRect)
            (base + stride) (i + 1) rem with
        | .error e => .error e
        | .ok evs => .ok (writes_at base skipBytes ++ writes_at base rowBytes ++ evs)

/-- Row loop of the full-image branch of FrameDecoder CopyPixels: height rows
of bpl bytes each, starting from the stream's current position (this branch
performs no seek), destination advancing by stride. -/
def full_copy_loop (data : List Nat) (bpl stride : Nat) :
    Nat → Nat → Nat → Except DecodeError (List (Nat × Nat))
  | _, _, 0 => .ok []
  | pos, base, rem + 1 =>
    match read_exact data pos bpl with
    | none => .error .readFailed
    | some rowBytes =>
      match full_copy_loop data bpl stride (pos + bpl) (base + stride) rem with
      | .error e => .error e
      | .ok evs => .ok (writes_at base rowBytes ++ evs)

/-- First check of FrameDecoder CopyPixels: the caller's u32 stride is cast to
u16 and compared against bytes_per_line of the full image width. -/
def stride_too_small (hdr : FileHeader) (stride : Nat) : Bool :=
  decide (stride % 65536 < bytes_per_line hdr.width hdr.bit_depth)

/-- FrameDecoder CopyPixels over a pure region stream (data is the byte
content of the WIC region stream, whose offset 0 is the header's first byte;
pos0 is the stream's current position, used by the no-rect branch, which does
not seek).  The result is the ordered list of destination write events; the
source writes through a raw pointer, so no destination bound is enforced
beyond the min_buffer_size check. -/
def copy_pixels (hdr : FileHeader) (data : List Nat) (pos0 : Nat)
    (rect : Option WRect) (stride buffer_size : Nat) :
    Except DecodeError (List (Nat × Nat)) :=
  if stride_too_small hdr stride then .error .insufficientBuffer
  else
    let min_buffer_size := match rect with
      | some r => bytes_per_line (u16_of_i32 r.w) hdr.bit_depth * u32_of_i32 r.h % 4294967296
      | none => bytes_per_line hdr.width hdr.bit_depth * hdr.height % 4294967296
    if buffer_size < min_buffer_size then .error .insufficientBuffer
    else match rect with
      | some r =>
        if r.x < 0 ∨ r.y < 0 ∨ (hdr.width : Int) < r.x + r.w ∨
            (hdr.height : Int) < r.y + r.h then
          .error .invalidArg
        else
          let offset := (bytes_per_line hdr.width hdr.bit_depth * u32_of_i32 r.y
            + u32_of_i32 r.x) % 4294967296
          let bplRect := bytes_per_line (u16_of_i32 r.w) hdr.bit_depth
          rect_copy_loop data r.x.toNat bplRect stride
            (hdr.data_start + offset) 0 0 r.h.toNat
      | none =>
        full_copy_loop data (bytes_per_line hdr.width hdr.bit_depth) stride
          pos0 0 hdr.height

/-- A WIC palette handle is observed only through GetColors; it is modelled
as its color list (32-bit 0xAARRGGBB values). -/
def Palette := List Nat
  deriving DecidableEq

/-- PaletteToUse of encoder/mod.rs: the frame-level palette slot, tagged by
where the palette came from. -/
inductive PaletteToUse where
  | frame (p : Palette)
  | bitmapSource (p : Palette)
  deriving DecidableEq

/-- Modelled from the spec: the contents of the WIC predefined fixed
256-color halftone palette (WICBitmapPaletteTypeFixedHalftone256) are
produced by the WIC host, not by this repository; only its presence and its
256-entry size are relevant here. -/
def fallback_halftone256 : Palette :=
  List.replicate 256 0

/-- Chunk of encoder/mod.rs: raw bytes, the caller-declared stride (stored as
u16) and a line count. -/
structure Chunk where
  data : List Nat
  stride : Nat
  lines : Nat
  deriving DecidableEq, Repr

/-- FrameEncoderData of encoder/mod.rs (the parent handle is passed
separately to commit as the encoder-level palette slot). -/
structure FrameEncoderData where
  header : Option FileHeader
  palette : Option PaletteToUse
  imageData : List Chunk
  accumulatedHeight : Nat
  deriving DecidableEq

/-- Error sites of the encoder paths, one constructor per distinct
HRESULT-and-message pair in the source. -/
inductive EncodeError where
  | alreadyInitialized
  | unexpected
  | widthOutOfRange
  | heightOutOfRange
  | widthZero
  | heightZero
  | sizeAlreadySet
  | bufferSmallerThanStride
  | lineCountOutOfRange
  | pixelFormatNotSet
  | sizeNotSet
  | tooManyScanlines
  | pixelFormatNotSetCommit
  | sizeNotSetCommit
  | notEnoughScanlines
  | unreachableRegister
  | assertFailed
  | repackPanic
  deriving DecidableEq, Repr

/-- The four indexed WIC pixel-format GUIDs the codec recognizes, plus one
case standing for every other GUID. -/
inductive WicPixelFormat where
  | indexed1
  | indexed2
  | indexed4
  | indexed8
  | unknownFormat
  deriving DecidableEq, Repr

/-- FileHeader::default: magic BMX, version 1, everything else zero. -/
def default_file_header : FileHeader :=
  { file_id0 := 66, file_id1 := 77, file_id2 := 88, version := 1,
    bit_depth := 0, vera_color_depth_register := 0, width := 0, height := 0,
    pal_used := 0, pal_start := 0, data_start := 0, compressed := 0,
    vera_border_color := 0, reserved := List.replicate 16 0 }

/-- FrameEncoder::new: no header yet, no palette, no chunks. -/
def initial_frame_data : FrameEncoderData :=
  { header := none, palette := none, imageData := [], accumulatedHeight := 0 }

/-- FrameEncoder Initialize: errors when already initialized, else installs
the default header. -/
def initialize_frame (st : FrameEncoderData) : Except EncodeError FrameEncoderData :=
  if st.header.isSome then .error .alreadyInitialized
  else .ok { st with header := some default_file_header }

/-- FrameEncoder SetSize: u32 inputs converted to u16, both must be nonzero,
and a nonzero dimension that was already set must not change. -/
def set_size (w h : Nat) (st : FrameEncoderData) : Except EncodeError FrameEncoderData :=
  if 65535 < w then .error .widthOutOfRange
  else if 65535 < h then .error .heightOutOfRange
  else if w = 0 then .error .widthZero
  else if h = 0 then .error .heightZero
  else match st.header with
    | none => .error .unexpected
    | some hd =>
      if (hd.width ≠ 0 ∧ hd.width ≠ w) ∨ (hd.height ≠ 0 ∧ hd.height ≠ h) then
        .error .sizeAlreadySet
      else .ok { st with header := some { hd with width := w, height := h } }

/-- FrameEncoder SetPixelFormat: the fixed bijection to bit depth; an unknown
format is replaced by 8bpp indexed and the substitution is written back to
the caller (returned as the first component). -/
def set_pixel_format (fmt : WicPixelFormat) (st : FrameEncoderData) :
    Except EncodeError (WicPixelFormat × FrameEncoderData) :=
  match st.header with
  | none => .error .unexpected
  | some hd =>
    let res : WicPixelFormat × Nat := match fmt with
      | .indexed1 => (.indexed1, 1)
      | .indexed2 => (.indexed2, 2)
      | .indexed4 => (.indexed4, 4)
      | .indexed8 => (.indexed8, 8)
      | .unknownFormat => (.indexed8, 8)
    .ok (res.1, { st with header := some { hd with bit_depth := res.2 } })

/-- FrameEncoder SetPalette: stores the palette tagged Frame, always
overwriting the slot. -/
def frame_set_palette (p : Palette) (st : FrameEncoderData) : FrameEncoderData :=
  { st with palette := some (.frame p) }

/-- Palette capture of FrameEncoder WriteSource: the source's palette is
captured, tagged BitmapSource, only when the slot is still empty. -/
def capture_source_palette (p : Palette) (st : FrameEncoderData) : FrameEncoderData :=
  if st.palette.isNone then { st with palette := some (.bitmapSource p) } else st

/-- FrameEncoder WritePixels: buffer must be at least stride bytes, the u32
line count must fit u16, bit depth and width must already be set, and the
u16 sum of accumulated height and line count must not exceed the declared
height; then the chunk is buffered (buffer_size bytes, stride stored as u16)
and the accumulated height advances. -/
def write_pixels (line_count stride buffer_size : Nat) (pixels : List Nat)
    (st : FrameEncoderData) : Except EncodeError FrameEncoderData :=
  if buffer_size < stride then .error .bufferSmallerThanStride
  else if 65535 < line_count then .error .lineCountOutOfRange
  else match st.header with
    | none => .error .unexpected
    | some hd =>
      if hd.bit_depth = 0 then .error .pixelFormatNotSet
      else if hd.width = 0 then .error .sizeNotSet
      else if hd.height < (st.accumulatedHeight + line_count) % 65536 then
        .error .tooManyScanlines
      else .ok { st with
        imageData := st.imageData ++
          [{ data := pixels.take buffer_size, stride := stride % 65536,
             lines := line_count }],
        accumulatedHeight := (st.accumulatedHeight + line_count) % 65536 }

/-- Commit's register derivation: the fixed pairing table; any other bit
depth hits the source's unreachable arm. -/
def register_for (bit_depth : Nat) : Option Nat :=
  match bit_depth with
  | 1 => some 0
  | 2 => some 1
  | 4 => some 2
  | 8 => some 3
  | _ => none

/-- Commit's palette resolution (the palette_to_use match of encoder/mod.rs):
a Frame-tagged palette wins outright; a BitmapSource-tagged palette loses to
the surrounding encoder's palette; with no frame-level palette the encoder's
palette is used when present, else the built-in 256-color fallback is
generated. -/
def palette_to_use (framePal : Option PaletteToUse) (parentPal : Option Palette) :
    Palette :=
  match framePal with
  | some (.frame p) => p
  | some (.bitmapSource p) =>
    match parentPal with
    | some q => q
    | none => p
  | none =>
    match parentPal with
    | some q => q
    | none => fallback_halftone256

/-- Spec-side palette priority, worded as the spec resolves it: explicit
frame palette, then encoder-level default, then bitmap-source-captured, then
the built-in 256-color fallback generated when nothing else is available. -/
def resolve_palette_priority (explicitPal encoderPal capturedPal : Option Palette) :
    Palette :=
  match explicitPal with
  | some p => p
  | none =>
    match encoderPal with
    | some p => p
    | none =>
      match capturedPal with
      | some p => p
      | none => fallback_halftone256

/-- The explicit (Frame-tagged) palette held in the frame slot, if any. -/
def explicit_of (framePal : Option PaletteToUse) : Option Palette :=
  match framePal with
  | some (.frame p) => some p
  | _ => none

/-- The bitmap-source-captured palette held in the frame slot, if any. -/
def captured_of (framePal : Option PaletteToUse) : Option Palette :=
  match framePal with
  | some (.bitmapSource p) => some p
  | _ => none

/-- The u16 sum (wrapping at 2 ^ 16) used by commit over the buffered chunk
line counts. -/
def sum16 (l : List Nat) : Nat :=
  l.foldl (fun a b => (a + b) % 65536) 0

/-- chunks_exact of the Rust slice API: maximal list of consecutive
chunk-size rows, the remainder dropped; chunk size zero is a panic at the
call site and is handled by the caller below. -/
def chunks_exact (k : Nat) (l : List Nat) : List (List Nat) :=
  if h : k = 0 ∨ l.length < k then []
  else l.take k :: chunks_exact k (l.drop k)
termination_by l.length
decreasing_by
  push_neg at h
  simp only [List.length_drop]
  omega

/-- Row repacking of commit for one chunk: a chunk whose stride equals the
canonical bytes_per_line is written verbatim; otherwise each stride-sized row
is sliced to its first bytes_per_line bytes.  none models a panic: slicing a
row shorter than bytes_per_line, or chunks_exact with chunk size zero. -/
def repack_chunk (bpl : Nat) (c : Chunk) : Option (List Nat) :=
  if c.stride = bpl then some c.data
  else if c.stride = 0 then none
  else ((chunks_exact c.stride c.data).mapM
    (fun row => if bpl ≤ row.length then some (row.take bpl) else none)).map List.flatten

/-- In-memory byte layout of the FileHeader struct (repr C, little-endian
target), as written by commit's raw struct serialization: identical to
to_bytes except that data_start is laid out little-endian in memory. -/
def FileHeader.struct_bytes (h : FileHeader) : List Nat :=
  h.file_id0 :: h.file_id1 :: h.file_id2 :: h.version :: h.bit_depth ::
  h.vera_color_depth_register :: (h.width % 256) :: (h.width / 256 % 256) ::
  (h.height % 256) :: (h.height / 256 % 256) :: h.pal_used :: h.pal_start ::
  (h.data_start % 256) :: (h.data_start / 256 % 256) :: h.compressed ::
  h.vera_border_color :: h.reserved

/-- Spec-side description of validation as the claim words it: an ordered
list of (failure flag, error kind) checks, the first failing check
determining the single error reported. -/
def spec_checks (h : FileHeader) : List (Bool × FileHeaderError) :=
  [(decide (¬(h.file_id0 = 66 ∧ h.file_id1 = 77 ∧ h.file_id2 = 88)), .invalidFileId),
   (decide (h.version ≠ 1), .invalidVersion),
   (decide (¬(h.bit_depth = 1 ∨ h.bit_depth = 2 ∨ h.bit_depth = 4 ∨ h.bit_depth = 8)),
     .invalidBitDepth),
   (decide (¬(h.vera_color_depth_register ≤ 3)), .invalidVeraColorDepthRegister),
   (decide (¬((h.bit_depth = 1 ∧ h.vera_color_depth_register = 0) ∨
     (h.bit_depth = 2 ∧ h.vera_color_depth_register = 1) ∨
     (h.bit_depth = 4 ∧ h.vera_color_depth_register = 2) ∨
     (h.bit_depth = 8 ∧ h.vera_color_depth_register = 3))), .bitDepthMismatch),
   (decide (h.data_start < 32 + 2 * h.palette_entry_count), .invalidDataStart)]

/-- Spec-side validate: report the error of the first failing check, Ok when
every check passes. -/
def validate_spec (h : FileHeader) : Except FileHeaderError Unit :=
  match (spec_checks h).find? (fun c => c.1) with
  | some c => .error c.2
  | none => .ok ()

/-- FrameEncoder Commit: state checks (pixel format, size, exact scanline
total with u16 summation), register derivation, palette resolution and
conversion, pal_used and data_start computation, the validate assertion, and
serialization of header, palette entries and repacked chunks. -/
def commit (st : FrameEncoderData) (parentPal : Option Palette) :
    Except EncodeError (List Nat) :=
  match st.header with
  | none => .error .unexpected
  | some hd =>
    if hd.bit_depth = 0 then .error .pixelFormatNotSetCommit
    else if hd.width = 0 then .error .sizeNotSetCommit
    else if sum16 (st.imageData.map Chunk.lines) ≠ hd.height then
      .error .notEnoughScanlines
    else match register_for hd.bit_depth with
      | none => .error .unreachableRegister
      | some reg =>
        let pal := palette_to_use st.palette parentPal
        let actualColors := min pal.length 256
        let entries := (pal.take actualColors).map PaletteEntry.from_wic
        let hd2 : FileHeader := { hd with
          vera_color_depth_register := reg,
          pal_used := if actualColors = 256 then 0 else actualColors,
          data_start := 32 + 2 * actualColors }
        match hd2.validate with
        | .error _ => .error .assertFailed
        | .ok _ =>
          let bpl := bytes_per_line hd2.width hd2.bit_depth
          match st.imageData.mapM (repack_chunk bpl) with
          | none => .error .repackPanic
          | some packed =>
            .ok (hd2.struct_bytes ++ (entries.map PaletteEntry.struct_bytes).flatten
              ++ packed.flatten)

/-! Helper lemmas. -/

theorem shr4_lt : ∀ x < 256, x >>> 4 < 16 := by decide

theorem pack_unpack_hi : ∀ a < 16, ∀ c < 16, (a <<< 4 ||| c) >>> 4 = a := by decide

theorem pack_unpack_lo : ∀ a < 16, ∀ c < 16, (a <<< 4 ||| c) &&& 15 = c := by decide

theorem shr_shl_mask : ∀ x < 256, (x >>> 4) <<< 4 = x &&& 240 := by decide

/-- Claim C7: for all 8-bit channel values, to_rgb after from_rgb keeps
exactly the top four bits of each channel: the result is
(r andBits 0xF0, g andBits 0xF0, b andBits 0xF0), deterministically. -/
theorem palette_roundtrip_top_nibbles (r g b : Nat)
    (hr : r < 256) (hg : g < 256) (hb : b < 256) :
    (PaletteEntry.from_rgb r g b).to_rgb = (r &&& 240, g &&& 240, b &&& 240) := by
  have hgh := shr4_lt g hg
  have hbh := shr4_lt b hb
  simp only [PaletteEntry.from_rgb, PaletteEntry.to_rgb]
  rw [pack_unpack_hi (g >>> 4) hgh (b >>> 4) hbh,
    pack_unpack_lo (g >>> 4) hgh (b >>> 4) hbh,
    shr_shl_mask r hr, shr_shl_mask g hg, shr_shl_mask b hb]

/-- Witness for C7 at r = 0x12, g = 0x34, b = 0x56. -/
theorem palette_roundtrip_top_nibbles_witness :
    (PaletteEntry.from_rgb 18 52 86).to_rgb = (18 &&& 240, 52 &&& 240, 86 &&& 240) :=
  palette_roundtrip_top_nibbles 18 52 86 (by decide) (by decide) (by decide)

/-- Claim C8: for every u16 width and supported bit depth, bytes_per_line is
the exact ceiling of width * bit_depth / 8 with no padding; the bit-depth-1
and bit-depth-8 specializations and the four concrete cases follow. -/
theorem bytes_per_line_is_ceil (w b : Nat) (hw : w < 65536)
    (hb : b = 1 ∨ b = 2 ∨ b = 4 ∨ b = 8) :
    bytes_per_line w b = ceil_div (w * b) 8 ∧
    bytes_per_line w 1 = ceil_div w 8 ∧
    bytes_per_line w 8 = w ∧
    bytes_per_line 1 1 = 1 ∧ bytes_per_line 9 1 = 2 ∧
    bytes_per_line 4 4 = 2 ∧ bytes_per_line 3 8 = 3 := by
  unfold bytes_per_line ceil_div
  refine ⟨?_, by omega, by omega, by decide, by decide, by decide, by decide⟩
  rcases hb with rfl | rfl | rfl | rfl <;> omega

/-- Witness for C8 at w = 9, b = 1. -/
theorem bytes_per_line_is_ceil_witness :
    bytes_per_line 9 1 = ceil_div (9 * 1) 8 ∧
    bytes_per_line 9 1 = ceil_div 9 8 ∧
    bytes_per_line 9 8 = 9 ∧
    bytes_per_line 1 1 = 1 ∧ bytes_per_line 9 1 = 2 ∧
    bytes_per_line 4 4 = 2 ∧ bytes_per_line 3 8 = 3 :=
  bytes_per_line_is_ceil 9 1 (by decide) (Or.inl rfl)

/-- Claim C4: validate checks magic, version, bit-depth membership, register
membership, the pairing table and the data_start lower bound in that fixed
order, reporting the distinct error kind of the first failing check, and
returns Ok exactly when all six checks pass. -/
theorem validate_refines_ordered_checks (h : FileHeader) :
    h.validate = validate_spec h ∧
    (h.validate = .ok () ↔
      ((h.file_id0 = 66 ∧ h.file_id1 = 77 ∧ h.file_id2 = 88) ∧ h.version = 1 ∧
        (h.bit_depth = 1 ∨ h.bit_depth = 2 ∨ h.bit_depth = 4 ∨ h.bit_depth = 8) ∧
        h.vera_color_depth_register ≤ 3 ∧
        ((h.bit_depth = 1 ∧ h.vera_color_depth_register = 0) ∨
          (h.bit_depth = 2 ∧ h.vera_color_depth_register = 1) ∨
          (h.bit_depth = 4 ∧ h.vera_color_depth_register = 2) ∨
          (h.bit_depth = 8 ∧ h.vera_color_depth_register = 3)) ∧
        32 + 2 * h.palette_entry_count ≤ h.data_start)) := by
  constructor
  · unfold FileHeader.validate validate_spec spec_checks
    by_cases h1 : ¬(h.file_id0 = 66 ∧ h.file_id1 = 77 ∧ h.file_id2 = 88)
    · rw [if_pos h1,
        decide_eq_true (p := ¬(h.file_id0 = 66 ∧ h.file_id1 = 77 ∧ h.file_id2 = 88)) h1]
      rfl
    · rw [if_neg h1,
        decide_eq_false (p := ¬(h.file_id0 = 66 ∧ h.file_id1 = 77 ∧ h.file_id2 = 88)) h1]
      by_cases h2 : h.version ≠ 1
      · rw [if_pos h2, decide_eq_true (p := h.version ≠ 1) h2]
        rfl
      · rw [if_neg h2, decide_eq_false (p := h.version ≠ 1) h2]
        by_cases h3 : ¬(h.bit_depth = 1 ∨ h.bit_depth = 2 ∨ h.bit_depth = 4 ∨ h.bit_depth = 8)
        · rw [if_pos h3, decide_eq_true
            (p := ¬(h.bit_depth = 1 ∨ h.bit_depth = 2 ∨ h.bit_depth = 4 ∨ h.bit_depth = 8)) h3]
          rfl
        · rw [if_neg h3, decide_eq_false
            (p := ¬(h.bit_depth = 1 ∨ h.bit_depth = 2 ∨ h.bit_depth = 4 ∨ h.bit_depth = 8)) h3]
          by_cases h4 : ¬(h.vera_color_depth_register ≤ 3)
          · rw [if_pos h4, decide_eq_true (p := ¬(h.vera_color_depth_register ≤ 3)) h4]
            rfl
          · rw [if_neg h4, decide_eq_false (p := ¬(h.vera_color_depth_register ≤ 3)) h4]
            by_cases h5 : ¬((h.bit_depth = 1 ∧ h.vera_color_depth_register = 0) ∨
              (h.bit_depth = 2 ∧ h.vera_color_depth_register = 1) ∨
              (h.bit_depth = 4 ∧ h.vera_color_depth_register = 2) ∨
              (h.bit_depth = 8 ∧ h.vera_color_depth_register = 3))
            · rw [if_pos h5, decide_eq_true
                (p := ¬((h.bit_depth = 1 ∧ h.vera_color_depth_register = 0) ∨
                  (h.bit_depth = 2 ∧ h.vera_color_depth_register = 1) ∨
                  (h.bit_depth = 4 ∧ h.vera_color_depth_register = 2) ∨
                  (h.bit_depth = 8 ∧ h.vera_color_depth_register = 3))) h5]
              rfl
            · rw [if_neg h5, decide_eq_false
                (p := ¬((h.bit_depth = 1 ∧ h.vera_color_depth_register = 0) ∨
                  (h.bit_depth = 2 ∧ h.vera_color_depth_register = 1) ∨
                  (h.bit_depth = 4 ∧ h.vera_color_depth_register = 2) ∨
                  (h.bit_depth = 8 ∧ h.vera_color_depth_register = 3))) h5]
              by_cases h6 : h.data_start < 32 + 2 * h.palette_entry_count
              · rw [if_pos h6, decide_eq_true
                  (p := h.data_start < 32 + 2 * h.palette_entry_count) h6]
                rfl
              · rw [if_neg h6, decide_eq_false
                  (p := h.data_start < 32 + 2 * h.palette_entry_count) h6]
                rfl
  · unfold FileHeader.validate
    split_ifs with h1 h2 h3 h4 h5 h6 <;> simp_all [FileHeader.palette_entry_count]

/-- Claim C3: serialization writes data_start big-endian (byte 12 is the high
byte, byte 13 the low byte) while width and height are written little-endian,
and parsing reads data_start little-endian (byte 12 plus 256 times byte 13);
the asymmetry is preserved bit for bit. -/
theorem data_start_endianness_asymmetry (h : FileHeader) (hwf : h.wf) :
    h.to_bytes.getD 12 0 = h.data_start / 256 ∧
    h.to_bytes.getD 13 0 = h.data_start % 256 ∧
    h.to_bytes.getD 6 0 = h.width % 256 ∧
    h.to_bytes.getD 7 0 = h.width / 256 ∧
    h.to_bytes.getD 8 0 = h.height % 256 ∧
    h.to_bytes.getD 9 0 = h.height / 256 ∧
    (∀ bytes h2, FileHeader.from_bytes bytes = .ok h2 →
      h2.data_start = bytes.getD 12 0 + 256 * bytes.getD 13 0) := by
  obtain ⟨-, -, -, -, -, -, hw, hht, -, -, hds, -, -, -, -⟩ := hwf
  refine ⟨?_, ?_, ?_, ?_, ?_, ?_, ?_⟩
  · simp only [FileHeader.to_bytes, List.getD_cons_succ, List.getD_cons_zero]
    omega
  · simp only [FileHeader.to_bytes, List.getD_cons_succ, List.getD_cons_zero]
  · simp only [FileHeader.to_bytes, List.getD_cons_succ, List.getD_cons_zero]
  · simp only [FileHeader.to_bytes, List.getD_cons_succ, List.getD_cons_zero]
    omega
  · simp only [FileHeader.to_bytes, List.getD_cons_succ, List.getD_cons_zero]
  · simp only [FileHeader.to_bytes, List.getD_cons_succ, List.getD_cons_zero]
    omega
  · intro bytes h2 hparse
    unfold FileHeader.from_bytes at hparse
    split_ifs at hparse
    dsimp only at hparse
    split at hparse
    · injection hparse with he
      subst he
      rfl
    · exact absurd hparse (by simp)

/-- Witness for C3 at a concrete well-formed header. -/
theorem data_start_endianness_asymmetry_witness :
    (FileHeader.to_bytes
      ⟨66, 77, 88, 1, 8, 3, 2, 2, 2, 0, 290, 0, 0, List.replicate 16 0⟩).getD 12 0 =
      290 / 256 :=
  (data_start_endianness_asymmetry
    ⟨66, 77, 88, 1, 8, 3, 2, 2, 2, 0, 290, 0, 0, List.replicate 16 0⟩ (by decide)).1

/-- Claim C5: at commit, the serialized palette is resolved by fixed
priority: frame-level explicitly set palette, then the encoder-level default
palette, then the palette captured from a bitmap source during write_source,
then the built-in 256-color fallback generated only when none of the other
three exists. -/
theorem commit_palette_priority (framePal : Option PaletteToUse)
    (parentPal : Option Palette) :
    palette_to_use framePal parentPal =
      resolve_palette_priority (explicit_of framePal) parentPal (captured_of framePal) := by
  rcases framePal with - | fp
  · cases parentPal <;> rfl
  · cases fp <;> cases parentPal <;> rfl

/-- Claim C10: the decoder's CopyPixels compares the caller's 32-bit stride
against bytes_per_line only after truncation to the low 16 bits: every stride
of at least 2 ^ 16 whose low 16 bits are below bytes_per_line is rejected
with the insufficient-buffer error even though the stride itself is at least
bytes_per_line, while for strides below 2 ^ 16 the comparison is exact. -/
theorem copy_pixels_stride_truncation (hdr : FileHeader) (data : List Nat)
    (pos0 : Nat) (rect : Option WRect) (stride buffer_size : Nat) :
    (stride_too_small hdr stride = true →
      copy_pixels hdr data pos0 rect stride buffer_size = .error .insufficientBuffer) ∧
    (65536 ≤ stride → stride % 65536 < bytes_per_line hdr.width hdr.bit_depth →
      copy_pixels hdr data pos0 rect stride buffer_size = .error .insufficientBuffer ∧
        bytes_per_line hdr.width hdr.bit_depth ≤ stride) ∧
    (stride < 65536 →
      (stride_too_small hdr stride = true ↔
        stride < bytes_per_line hdr.width hdr.bit_depth)) := by
  have hbpl : bytes_per_line hdr.width hdr.bit_depth < 65536 :=
    Nat.mod_lt _ (by omega)
  refine ⟨?_, ?_, ?_⟩
  · intro hs
    unfold copy_pixels
    rw [hs]
    rfl
  · intro hge hlt
    have hs : stride_too_small hdr stride = true := by
      unfold stride_too_small
      simpa using hlt
    refine ⟨?_, by omega⟩
    unfold copy_pixels
    rw [hs]
    rfl
  · intro hlt
    unfold stride_too_small
    rw [Nat.mod_eq_of_lt hlt]
    simp

/-- Witness for C10: stride 65537 with low 16 bits 1 is rejected for the
2-pixel-wide 8-bit image though 65537 exceeds bytes_per_line 2. -/
theorem copy_pixels_stride_truncation_witness :
    copy_pixels ⟨66, 77, 88, 1, 8, 3, 2, 2, 2, 0, 36, 0, 0, List.replicate 16 0⟩
        [] 0 none 65537 4 = .error .insufficientBuffer ∧
      bytes_per_line 2 8 ≤ 65537 :=
  (copy_pixels_stride_truncation ⟨66, 77, 88, 1, 8, 3, 2, 2, 2, 0, 36, 0, 0,
    List.replicate 16 0⟩ [] 0 none 65537 4).2.1 (by decide) (by decide)

/-- Byte-swap arithmetic: high byte of the swapped u16 value. -/
theorem swap16_div (d : Nat) (hd : d < 65536) :
    (d % 256 * 256 + d / 256) / 256 = d % 256 := by
  rw [Nat.add_comm, Nat.add_mul_div_right _ _ (by norm_num : (0 : Nat) < 256),
    Nat.div_eq_of_lt (by omega : d / 256 < 256), Nat.zero_add]

/-- Byte-swap arithmetic: low byte of the swapped u16 value. -/
theorem swap16_mod (d : Nat) :
    (d % 256 * 256 + d / 256) % 256 = d / 256 % 256 := by
  rw [Nat.add_comm, Nat.add_mul_mod_self_right]

/-- Claim C1 (amended): for a valid well-formed header, parsing the
serialized bytes yields the header with data_start byte-swapped (serialize
writes it big-endian, parse reads it little-endian), succeeding exactly when
the swapped value still meets the data_start lower bound; re-serializing
transposes bytes 12 and 13 of the original output, so the round trip is
byte-identical exactly when the two data_start bytes coincide. -/
theorem serialize_parse_serialize_swaps_data_start (h : FileHeader) (hwf : h.wf)
    (hv : h.validate = .ok ()) :
    (FileHeader.from_bytes h.to_bytes =
      if h.data_start % 256 * 256 + h.data_start / 256 < 32 + 2 * h.palette_entry_count
      then .error .invalidDataStart
      else .ok { h with data_start := h.data_start % 256 * 256 + h.data_start / 256 }) ∧
    (FileHeader.to_bytes
        { h with data_start := h.data_start % 256 * 256 + h.data_start / 256 } =
      (h.to_bytes.set 12 (h.to_bytes.getD 13 0)).set 13 (h.to_bytes.getD 12 0)) ∧
    (FileHeader.to_bytes
        { h with data_start := h.data_start % 256 * 256 + h.data_start / 256 } =
        h.to_bytes ↔
      h.data_start / 256 = h.data_start % 256) := by
  obtain ⟨hf0, hf1, hf2, hver, hbd, hreg, hw, hht, hpu, hps, hds, hcp, hbc, hrl, hrb⟩ := hwf
  unfold FileHeader.validate at hv
  split_ifs at hv with v1 v2 v3 v4 v5 v6
  all_goals simp only [reduceCtorEq] at hv
  obtain ⟨e0, e1, e2⟩ := v1
  rw [not_not] at v2
  refine ⟨?_, ?_, ?_⟩
  · unfold FileHeader.from_bytes FileHeader.to_bytes
    simp only [List.getD_cons_zero, List.getD_cons_succ, List.length_cons, hrl,
      List.drop_succ_cons, List.drop_zero, e0, e1, e2, v2]
    have hw2 : h.width % 256 + 256 * (h.width / 256 % 256) = h.width := by omega
    have hh2 : h.height % 256 + 256 * (h.height / 256 % 256) = h.height := by omega
    have hd2 : h.data_start / 256 % 256 + 256 * (h.data_start % 256) =
        h.data_start % 256 * 256 + h.data_start / 256 := by omega
    rw [hw2, hh2, hd2]
    norm_num
    unfold FileHeader.validate FileHeader.palette_entry_count
    have n1 : ¬¬((66 : Nat) = 66 ∧ (77 : Nat) = 77 ∧ (88 : Nat) = 88) := by simp
    have n2 : ¬((1 : Nat) ≠ 1) := by simp
    by_cases hlt : h.data_start % 256 * 256 + h.data_start / 256 <
        32 + 2 * (if h.pal_used = 0 then 256 else h.pal_used)
    · rw [if_neg n1, if_neg n2, if_neg (not_not_intro v3), if_neg (not_not_intro v4),
        if_neg (not_not_intro v5), if_pos hlt, if_pos hlt]
    · rw [if_neg n1, if_neg n2, if_neg (not_not_intro v3), if_neg (not_not_intro v4),
        if_neg (not_not_intro v5), if_neg hlt, if_neg hlt]
  · simp only [FileHeader.to_bytes, List.set, List.getD_cons_succ, List.getD_cons_zero,
      List.cons.injEq, and_true, true_and]
    rw [swap16_div h.data_start hds, swap16_mod h.data_start]
    omega
  · simp only [FileHeader.to_bytes, List.cons.injEq, and_true, true_and]
    rw [swap16_div h.data_start hds, swap16_mod h.data_start]
    omega

/-- Witness for the amended C1 at a concrete valid header with
data_start = 0x0122. -/
theorem serialize_parse_serialize_swaps_data_start_witness :
    FileHeader.from_bytes
      (FileHeader.to_bytes ⟨66, 77, 88, 1, 8, 3, 0, 0, 1, 0, 290, 0, 0, List.replicate 16 0⟩) =
      if 290 % 256 * 256 + 290 / 256 <
          32 + 2 * FileHeader.palette_entry_count
            ⟨66, 77, 88, 1, 8, 3, 0, 0, 1, 0, 290, 0, 0, List.replicate 16 0⟩ then
        .error .invalidDataStart
      else
        .ok { (⟨66, 77, 88, 1, 8, 3, 0, 0, 1, 0, 290, 0, 0, List.replicate 16 0⟩ : FileHeader)
          with data_start := 290 % 256 * 256 + 290 / 256 } :=
  (serialize_parse_serialize_swaps_data_start
    ⟨66, 77, 88, 1, 8, 3, 0, 0, 1, 0, 290, 0, 0, List.replicate 16 0⟩
    (by decide) (by decide)).1

/-- Counterexample to C1 as stated: the header with data_start = 0x0122
(= 290) is valid, yet serialize-parse-serialize changes the serialized bytes
(positions 12 and 13 are transposed); with data_start = 0x2100 (= 8448) and
pal_used = 1 the header is valid but parsing the serialized bytes fails
outright with the data_start error (the little-endian read sees 0x0021 = 33,
below the bound 34). -/
theorem serialize_parse_serialize_counterexample :
    (FileHeader.validate ⟨66, 77, 88, 1, 8, 3, 0, 0, 1, 0, 290, 0, 0, List.replicate 16 0⟩ =
      .ok ()) ∧
    ((FileHeader.from_bytes
        (FileHeader.to_bytes
          ⟨66, 77, 88, 1, 8, 3, 0, 0, 1, 0, 290, 0, 0, List.replicate 16 0⟩)).map
        FileHeader.to_bytes ≠
      .ok (FileHeader.to_bytes
        ⟨66, 77, 88, 1, 8, 3, 0, 0, 1, 0, 290, 0, 0, List.replicate 16 0⟩)) ∧
    (FileHeader.validate ⟨66, 77, 88, 1, 8, 3, 0, 0, 1, 0, 8448, 0, 0, List.replicate 16 0⟩ =
      .ok ()) ∧
    (FileHeader.from_bytes
        (FileHeader.to_bytes
          ⟨66, 77, 88, 1, 8, 3, 0, 0, 1, 0, 8448, 0, 0, List.replicate 16 0⟩) =
      .error .invalidDataStart) := by
  refine ⟨by decide, ?_, by decide, by decide⟩
  decide

/-- Every row produced by chunks_exact has exactly the chunk size. -/
theorem chunks_exact_mem_length (k : Nat) (l : List Nat) (row : List Nat)
    (hrow : row ∈ chunks_exact k l) : row.length = k := by
  rw [chunks_exact] at hrow
  split at hrow
  · simp at hrow
  · rename_i hcond
    push_neg at hcond
    rcases List.mem_cons.mp hrow with rfl | h2
    · simp only [List.length_take]
      omega
    · exact chunks_exact_mem_length k (l.drop k) row h2
termination_by l.length
decreasing_by
  simp only [List.length_drop]
  omega

/-- An Option-valued mapM succeeds exactly when it succeeds pointwise. -/
theorem mapM_option_isSome {α β : Type} (f : α → Option β) (l : List α) :
    (l.mapM f).isSome = true ↔ ∀ a ∈ l, (f a).isSome = true := by
  induction l with
  | nil => simp [List.mapM.loop]
  | cons a as ih =>
    rw [List.mapM_cons]
    cases hfa : f a <;> cases hmas : as.mapM f <;>
      simp_all [Option.isSome, Bind.bind, Option.bind]

/-- Claim C9: with a nonempty canonical row width, repacking a buffered chunk
at commit stays in bounds (no panic from slicing or from a zero chunk size)
exactly when the chunk's stored stride is nonzero and at least bytes_per_line
-- yet write_pixels accepts a chunk under the sole stride constraint
buffer_size >= stride, so strides below bytes_per_line, including zero, are
accepted and only explode at commit. -/
theorem commit_repack_bounds (bpl : Nat) (c : Chunk) (hbpl : 1 ≤ bpl)
    (hlen : c.stride ≤ c.data.length) :
    ((repack_chunk bpl c).isSome = true ↔ (c.stride ≠ 0 ∧ bpl ≤ c.stride)) ∧
    (∀ st hd lc stride bufSize pixels, st.header = some hd → hd.bit_depth ≠ 0 →
      hd.width ≠ 0 → lc ≤ 65535 → stride ≤ bufSize →
      (st.accumulatedHeight + lc) % 65536 ≤ hd.height →
      write_pixels lc stride bufSize pixels st = .ok { st with
        imageData := st.imageData ++
          [{ data := pixels.take bufSize, stride := stride % 65536, lines := lc }],
        accumulatedHeight := (st.accumulatedHeight + lc) % 65536 }) := by
  constructor
  · unfold repack_chunk
    by_cases h1 : c.stride = bpl
    · rw [if_pos h1]
      exact ⟨fun _ => ⟨by omega, by omega⟩, fun _ => rfl⟩
    · rw [if_neg h1]
      by_cases h2 : c.stride = 0
      · rw [if_pos h2]
        simp only [Option.isSome_none, Bool.false_eq_true, false_iff]
        omega
      · rw [if_neg h2]
        rw [Option.isSome_map']
        rw [mapM_option_isSome]
        constructor
        · intro hall
          refine ⟨h2, ?_⟩
          have hfirst : c.data.take c.stride ∈ chunks_exact c.stride c.data := by
            rw [chunks_exact]
            rw [dif_neg (by push_neg; exact ⟨h2, by omega⟩)]
            exact List.mem_cons_self _ _
          have hone := hall _ hfirst
          simp [List.length_take] at hone
          omega
        · rintro ⟨-, hble⟩ row hrow
          have hr := chunks_exact_mem_length c.stride c.data row hrow
          simp [hr, hble]
  · intro st hd lc stride bufSize pixels hhd hbd hw hlc hbs hacc
    simp [write_pixels, hhd, hbd, hw, Nat.not_lt.mpr hbs, Nat.not_lt.mpr hlc,
      Nat.not_lt.mpr hacc]

/-- Witness for C9: a one-byte chunk with stride 1 cannot be repacked to
width 2, and write_pixels accepts a stride-zero chunk. -/
theorem commit_repack_bounds_witness :
    ((repack_chunk 2 ⟨[5], 1, 1⟩).isSome = true ↔ ((1 : Nat) ≠ 0 ∧ 2 ≤ 1)) ∧
    (write_pixels 1 0 0 []
      ⟨some ⟨66, 77, 88, 1, 8, 0, 1, 2, 0, 0, 0, 0, 0, List.replicate 16 0⟩, none, [], 0⟩ =
      .ok ⟨some ⟨66, 77, 88, 1, 8, 0, 1, 2, 0, 0, 0, 0, 0, List.replicate 16 0⟩, none,
        [⟨[], 0, 1⟩], 1⟩) :=
  ⟨(commit_repack_bounds 2 ⟨[5], 1, 1⟩ (by decide) (by decide)).1,
    (commit_repack_bounds 2 ⟨[5], 1, 1⟩ (by decide) (by decide)).2
      ⟨some ⟨66, 77, 88, 1, 8, 0, 1, 2, 0, 0, 0, 0, 0, List.replicate 16 0⟩, none, [], 0⟩
      ⟨66, 77, 88, 1, 8, 0, 1, 2, 0, 0, 0, 0, 0, List.replicate 16 0⟩
      1 0 0 [] rfl (by decide) (by decide) (by decide) (by decide) (by decide)⟩

/-- Claim C6 (amended): the scanline bookkeeping is 16-bit wrapping
arithmetic: write_pixels rejects with the too-many-scanlines error exactly
when the u16 sum (accumulated_height + line_count) mod 2 ^ 16 exceeds the
declared height, otherwise appends the chunk and stores that wrapped sum (so
the stored accumulated_height never exceeds the height, though the true line
total can); and commit, once pixel format and size are set, fails with the
not-enough-scanlines error exactly when the u16-wrapped total of the buffered
chunk line counts differs from the declared height. -/
theorem write_pixels_commit_scanline_accounting (st : FrameEncoderData)
    (hd : FileHeader) (lc stride bufSize : Nat) (pixels : List Nat)
    (hhd : st.header = some hd) (hbd : hd.bit_depth ≠ 0) (hw : hd.width ≠ 0)
    (hlc : lc ≤ 65535) (hbs : stride ≤ bufSize) :
    (hd.height < (st.accumulatedHeight + lc) % 65536 →
      write_pixels lc stride bufSize pixels st = .error .tooManyScanlines) ∧
    ((st.accumulatedHeight + lc) % 65536 ≤ hd.height →
      write_pixels lc stride bufSize pixels st = .ok { st with
        imageData := st.imageData ++
          [{ data := pixels.take bufSize, stride := stride % 65536, lines := lc }],
        accumulatedHeight := (st.accumulatedHeight + lc) % 65536 }) ∧
    (∀ st2, write_pixels lc stride bufSize pixels st = .ok st2 →
      st2.accumulatedHeight ≤ hd.height) ∧
    (∀ pp, commit st pp = .error .notEnoughScanlines ↔
      sum16 (st.imageData.map Chunk.lines) ≠ hd.height) := by
  refine ⟨?_, ?_, ?_, ?_⟩
  · intro hgt
    simp [write_pixels, hhd, hbd, hw, Nat.not_lt.mpr hbs, Nat.not_lt.mpr hlc, hgt]
  · intro hle
    simp [write_pixels, hhd, hbd, hw, Nat.not_lt.mpr hbs, Nat.not_lt.mpr hlc,
      Nat.not_lt.mpr hle]
  · intro st2 hok
    simp only [write_pixels, hhd] at hok
    split_ifs at hok
    injection hok with he
    subst he
    rename_i hnotlt
    simpa using Nat.le_of_not_lt hnotlt
  · intro pp
    by_cases hsum : sum16 (st.imageData.map Chunk.lines) = hd.height
    · simp only [commit, hhd, hbd, hw, hsum, if_neg, ite_not, if_pos, ne_eq,
        not_true_eq_false, if_false]
      rcases hreg : register_for hd.bit_depth with - | reg <;>
        simp only [hreg, hsum]
      · simp [hbd, hw]
      · rcases hval : FileHeader.validate _ with e | u <;>
          simp only [hval, hbd, hw]
        · simp [hbd, hw, hval]
        · rcases hmm : List.mapM _ st.imageData with - | packed <;>
            simp [hbd, hw, hval, hmm]
    · simp [commit, hhd, hbd, hw, hsum]

/-- Witness for the amended C6 at a concrete open frame state: the first
scanline write is accepted and the premature commit reports the
not-enough-scanlines error. -/
theorem write_pixels_commit_scanline_accounting_witness :
    (write_pixels 1 1 1 [7]
      ⟨some ⟨66, 77, 88, 1, 8, 0, 1, 2, 0, 0, 0, 0, 0, List.replicate 16 0⟩, none, [], 0⟩ =
      .ok { (⟨some ⟨66, 77, 88, 1, 8, 0, 1, 2, 0, 0, 0, 0, 0, List.replicate 16 0⟩, none, [],
          0⟩ : FrameEncoderData) with
        imageData := [] ++ [{ data := [7].take 1, stride := 1 % 65536, lines := 1 }],
        accumulatedHeight := (0 + 1) % 65536 }) ∧
    (commit ⟨some ⟨66, 77, 88, 1, 8, 0, 1, 2, 0, 0, 0, 0, 0, List.replicate 16 0⟩, none,
        [], 0⟩ none = .error .notEnoughScanlines ↔
      sum16 (([] : List Chunk).map Chunk.lines) ≠
        (⟨66, 77, 88, 1, 8, 0, 1, 2, 0, 0, 0, 0, 0, List.replicate 16 0⟩ : FileHeader).height) :=
  ⟨(write_pixels_commit_scanline_accounting
      ⟨some ⟨66, 77, 88, 1, 8, 0, 1, 2, 0, 0, 0, 0, 0, List.replicate 16 0⟩, none, [], 0⟩
      ⟨66, 77, 88, 1, 8, 0, 1, 2, 0, 0, 0, 0, 0, List.replicate 16 0⟩
      1 1 1 [7] rfl (by decide) (by decide) (by decide) (by decide)).2.1 (by decide),
    (write_pixels_commit_scanline_accounting
      ⟨some ⟨66, 77, 88, 1, 8, 0, 1, 2, 0, 0, 0, 0, 0, List.replicate 16 0⟩, none, [], 0⟩
      ⟨66, 77, 88, 1, 8, 0, 1, 2, 0, 0, 0, 0, 0, List.replicate 16 0⟩
      1 1 1 [7] rfl (by decide) (by decide) (by decide) (by decide)).2.2.2 none⟩

/-- Counterexample to C6 as stated: after one accepted scanline on a
height-2 frame, write_pixels with line_count 65535 is accepted (the 16-bit
sum 1 + 65535 wraps to 0), although 1 + 65535 exceeds the declared height 2;
the buffered chunks then hold 65536 scanlines in total. -/
theorem write_pixels_overflow_counterexample :
    (((((initialize_frame initial_frame_data).bind (set_size 1 2)).bind
        (fun st => (set_pixel_format .indexed8 st).map Prod.snd)).bind
        (write_pixels 1 1 1 [7])).bind (write_pixels 65535 1 1 [9]) =
      .ok ⟨some ⟨66, 77, 88, 1, 8, 0, 1, 2, 0, 0, 0, 0, 0, List.replicate 16 0⟩, none,
        [⟨[7], 1, 1⟩, ⟨[9], 1, 65535⟩], 0⟩) ∧
    ((([⟨[7], 1, 1⟩, ⟨[9], 1, 65535⟩] : List Chunk).map Chunk.lines).sum = 65536) ∧
    1 + 65535 > 2 := by
  refine ⟨?_, by decide, by decide⟩
  decide

/-- Counterexample to C2 as stated: for the 2x2 8-bit image with pixel bytes
[0, 1, 1, 0], the rectangle call with x = 1, y = 0, w = 1, h = 2, destination
stride 1 and a 2-byte buffer does not succeed: the stride check compares the
stride against bytes_per_line of the full image width (2), so the call is
rejected with the insufficient-buffer error. -/
theorem copy_pixels_rect_scenario_counterexample :
    copy_pixels ⟨66, 77, 88, 1, 8, 3, 2, 2, 2, 0, 36, 0, 0, List.replicate 16 0⟩
      (List.replicate 36 0 ++ [0, 1, 1, 0]) 36 (some ⟨1, 0, 1, 2⟩) 1 2 =
      .error .insufficientBuffer := by
  decide

/-- Claim C2 (amended): the rectangle call with stride 1 is rejected with the
buffer-stride-too-small error, because the stride check uses bytes_per_line
of the full image width (2), not the rectangle width; with stride 2 the check
passes and the rectangle path seeks to data_start + 1, copies one byte per
row, and for the second row first discards rect.x = 1 leading byte via a real
read into the destination (the write event (2, 1)) before copying the row
byte that overwrites it -- the delivered column bytes are 1 and 0 (at
destination offsets 0 and 2), matching pixels (1,0) and (1,1) of [0,1,1,0],
not [1,1]. -/
theorem copy_pixels_rect_scenario_amended :
    (copy_pixels ⟨66, 77, 88, 1, 8, 3, 2, 2, 2, 0, 36, 0, 0, List.replicate 16 0⟩
      (List.replicate 36 0 ++ [0, 1, 1, 0]) 36 (some ⟨1, 0, 1, 2⟩) 1 2 =
      .error .insufficientBuffer) ∧
    bytes_per_line 2 8 = 2 ∧
    (copy_pixels ⟨66, 77, 88, 1, 8, 3, 2, 2, 2, 0, 36, 0, 0, List.replicate 16 0⟩
      (List.replicate 36 0 ++ [0, 1, 1, 0]) 36 (some ⟨1, 0, 1, 2⟩) 2 3 =
      .ok [(0, 1), (2, 1), (2, 0)]) ∧
    (copy_pixels ⟨66, 77, 88, 1, 8, 3, 2, 2, 2, 0, 36, 0, 0, List.replicate 16 0⟩
      (List.replicate 36 0 ++ [0, 1, 1, 0]) 36 none 2 4 =
      .ok [(0, 0), (1, 1), (2, 1), (3, 0)]) := by
  refine ⟨by decide, by decide, by decide, ?_⟩
  decide
